import Mathlib

/-!
Shallow embedding of the metadata-extraction pipeline of `src/app.py`
(functions `extract_metadata`, lines 35-128, and `handle_extract_metadata`,
lines 130-157) and a verification of its specified behavior.

External effects (the HTTP download via `requests`, the mutagen tag library,
the temp-file system) are modelled as explicit environment records describing
what the environment returns on this call; the Python control flow, including
which exceptions are caught where and which temp files are unlinked on which
path, is translated statement by statement.
-/

namespace MusicApp

/-- Python truthiness of an optional string tag value:
`None` and the empty string are falsy. -/
def optTruthy : Option String → Bool
  | none => false
  | some s => s ≠ ""

/-- Python truthiness of an optional integer: `None` and `0` are falsy. -/
def intTruthy : Option Int → Bool
  | none => false
  | some y => y ≠ 0

/-- Models the Python expression `x or d` for an optional string `x`:
the value when truthy, otherwise the default. -/
def strOrDefault (x : Option String) (d : String) : String :=
  match x with
  | some s => if s ≠ "" then s else d
  | none => d

/-- Models the Python expression `y or d` for an optional integer `y`. -/
def intOrDefault (y : Option Int) (d : Int) : Int :=
  match y with
  | some v => if v ≠ 0 then v else d
  | none => d

/-- Characters before the first `-`, i.e. Python `s.split('-')[0]`
(the whole string when no `-` occurs). -/
def takeBeforeDash : List Char → List Char
  | [] => []
  | c :: cs => if c = '-' then [] else c :: takeBeforeDash cs

/-- Python `s.split('-')[0]`. -/
def splitFirstDash (s : String) : String :=
  String.mk (takeBeforeDash s.data)

/-- Value of a decimal digit list. -/
def digitsVal (cs : List Char) : Nat :=
  cs.foldl (fun n c => 10 * n + (c.toNat - 48)) 0

/-- Models the Python builtin `int(s)` on a string: surrounding whitespace is
stripped, an optional single sign is allowed, and the rest must be a nonempty
run of decimal digits; `none` models the `ValueError` raised otherwise.
(Digit-group underscores, accepted by CPython, are not modelled: no claim's
input uses them.) -/
def pyInt (s : String) : Option Int :=
  let t := (s.data.dropWhile Char.isWhitespace).reverse.dropWhile Char.isWhitespace |>.reverse
  match t with
  | '-' :: cs => if cs ≠ [] ∧ cs.all Char.isDigit then some (-(digitsVal cs : Int)) else none
  | '+' :: cs => if cs ≠ [] ∧ cs.all Char.isDigit then some (digitsVal cs : Int) else none
  | cs => if cs ≠ [] ∧ cs.all Char.isDigit then some (digitsVal cs : Int) else none

/-- Models `int(date.split('-')[0])` (lines 90 and 103): `none` when the
conversion raises `ValueError`. -/
def parseYear (s : String) : Option Int :=
  pyInt (splitFirstDash s)

/-- Outcome of `requests.get(url, stream=True)` on this call (line 40):
either the call raises a transport exception, or it returns a response whose
`ok` field reflects the status code. -/
structure HttpEnv where
  raises : Bool
  ok : Bool
deriving Repr, DecidableEq

/-- What the mutagen library reports for the downloaded file on this call.
`readable = false` models `File(temp_path)` returning `None` (lines 55-57);
`hasTags` models `hasattr(audio, 'tags')` (lines 68, 96, 98, 100);
`isMP3` models `isinstance(audio, MP3)` (line 71);
`id3Raises` models the `ID3(temp_path)` cover branch raising (lines 73, 81);
`hasApic` models `'APIC:' in id3` (line 74);
`easyRaises` models `EasyID3(temp_path)` raising (lines 85, 92);
`easyTitle`, `easyArtist`, `easyDate` model `easy.get(k, [None])[0]`
(lines 86-88); `tit2`, `tpe1`, `tdrc` model `audio.tags.get(k, [None])[0]`
(lines 97, 99, 101). -/
structure AudioEnv where
  readable : Bool
  hasTags : Bool
  isMP3 : Bool
  id3Raises : Bool
  hasApic : Bool
  easyRaises : Bool
  easyTitle : Option String
  easyArtist : Option String
  easyDate : Option String
  tit2 : Option String
  tpe1 : Option String
  tdrc : Option String
deriving Repr, DecidableEq

/-- The dictionary returned on success (lines 112-117). -/
structure MetadataRecord where
  title : String
  singer : String
  image_url : String
  year : Int
deriving Repr, DecidableEq

/-- Result of one `extract_metadata` call together with its temp-file side
effects: which transient artifacts (the downloaded audio file, line 46, and
the extracted cover image, line 77) were created, and which were unlinked
before the call returned. -/
structure ExtractOutcome where
  result : Option MetadataRecord
  audioTempCreated : Bool
  audioTempDeleted : Bool
  coverTempCreated : Bool
  coverTempDeleted : Bool
deriving Repr, DecidableEq

/-- Whether the cover-art branch (lines 71-82) produces a cover temp file:
requires tags (line 68), an MP3 container (line 71), the `ID3` read not
raising, and an `APIC:` frame (line 74). -/
def coverProduced (env : AudioEnv) : Bool :=
  env.hasTags && env.isMP3 && !env.id3Raises && env.hasApic

/-- The primary (EasyID3) strategy, lines 68 and 84-93: the triple
(title, artist, year) after the `try` block around `EasyID3`.  When the
block is skipped (no tags) or `EasyID3` raises, all three stay `None`.
A `ValueError` from `int(date.split('-')[0])` (line 90) is caught by the
`except` at line 92 after `title` and `artist` were already assigned, so
those keep their values and `year` stays `None`. -/
def primaryTags (env : AudioEnv) : Option String × Option String × Option Int :=
  if !env.hasTags then (none, none, none)
  else if env.easyRaises then (none, none, none)
  else
    let year : Option Int :=
      match env.easyDate with
      | none => none
      | some d => if d ≠ "" then parseYear d else none
    (env.easyTitle, env.easyArtist, year)

/-- Primary-strategy title. -/
def primaryTitle (env : AudioEnv) : Option String := (primaryTags env).1

/-- Primary-strategy artist. -/
def primaryArtist (env : AudioEnv) : Option String := (primaryTags env).2.1

/-- Primary-strategy year. -/
def primaryYear (env : AudioEnv) : Option Int := (primaryTags env).2.2

/-- Title after the raw-frame fallback, lines 96-97:
`if not title and hasattr(audio, 'tags'): title = audio.tags.get('TIT2', [None])[0]`. -/
def finalTitle (env : AudioEnv) : Option String :=
  if !optTruthy (primaryTitle env) && env.hasTags then env.tit2 else primaryTitle env

/-- Artist after the raw-frame fallback, lines 98-99. -/
def finalArtist (env : AudioEnv) : Option String :=
  if !optTruthy (primaryArtist env) && env.hasTags then env.tpe1 else primaryArtist env

/-- The year fallback, lines 100-103.  Unlike the primary strategy this block
sits in no `try` of its own, so a `ValueError` from
`int(year_str.split('-')[0])` at line 103 propagates to the handler at
line 119; `Except.error ()` models that uncaught exception. -/
def fallbackYearStep (env : AudioEnv) (year : Option Int) : Except Unit (Option Int) :=
  if !intTruthy year && env.hasTags then
    match env.tdrc with
    | none => .ok year
    | some ys =>
        if ys ≠ "" then
          match parseYear ys with
          | some y => .ok (some y)
          | none => .error ()
        else .ok year
  else .ok year

/-- True exactly when, with a falsy year from the primary strategy, the
year fallback at line 103 raises an uncaught `ValueError`. -/
def fallbackYearRaises (env : AudioEnv) : Bool :=
  env.hasTags &&
    (match env.tdrc with
     | none => false
     | some ys => ys ≠ "" && (parseYear ys).isNone)

/-- `extract_metadata` (lines 35-128), as a function of the call's
environment and the current calendar year (`datetime.now().year`, line 116).

Exit paths, in source order:
* `requests.get` raises (outer `except`, line 126): failure, no temp file.
* `not response.ok` (lines 41-43): failure before the temp file is created.
* The temp file is written (lines 46-49); `File` returns `None` (lines 57-59):
  the code returns `None` without unlinking, so the audio temp file remains.
* The year fallback raises (line 103): the handler at lines 119-124 unlinks
  only `temp_path`, so a cover temp file, when one was produced, remains.
* Success (lines 107-117): both temp files are unlinked and the record is
  assembled with defaults and the fixed placeholder image URL. -/
def extract_metadata (http : HttpEnv) (env : AudioEnv) (nowYear : Int) :
    ExtractOutcome :=
  if http.raises then ⟨none, false, false, false, false⟩
  else if !http.ok then ⟨none, false, false, false, false⟩
  else if !env.readable then ⟨none, true, false, false, false⟩
  else
    let cover := coverProduced env
    match fallbackYearStep env (primaryYear env) with
    | .error _ => ⟨none, true, true, cover, false⟩
    | .ok year =>
        ⟨some { title := strOrDefault (finalTitle env) "Unknown Title"
                singer := strOrDefault (finalArtist env) "Unknown Artist"
                image_url := "https://via.placeholder.com/150"
                year := intOrDefault year nowYear },
         true, true, cover, cover⟩

/-- Request body of `POST /extract_metadata` as the route sees it (lines
133-138): `request.get_json()` returned nothing truthy, or a dict without
the key `url`, or a dict with a `url` string. -/
inductive ReqBody where
  | noJson
  | withoutUrl
  | withUrl (url : String)
deriving Repr, DecidableEq

/-- The route's observable outcome: HTTP status, error message when any,
successful payload when any, and whether `extract_metadata` was invoked
(hence whether a network request was attempted). -/
structure RouteOutcome where
  status : Nat
  errorMsg : Option String
  payload : Option MetadataRecord
  extractCalled : Bool
deriving Repr, DecidableEq

/-- Python `s.startswith(pre)`, over the character lists of the strings. -/
def pyStartsWith (pre s : String) : Bool :=
  pre.data.isPrefixOf s.data

/-- `url.startswith(('http://', 'https://'))` (line 142). -/
def validUrlScheme (url : String) : Bool :=
  pyStartsWith "http://" url || pyStartsWith "https://" url

/-- `handle_extract_metadata` (lines 130-157), parametric in the extraction
function it calls at line 147. -/
def handle_extract_metadata (body : ReqBody)
    (extract : String → Option MetadataRecord) : RouteOutcome :=
  match body with
  | .noJson => ⟨400, some "URL is required", none, false⟩
  | .withoutUrl => ⟨400, some "URL is required", none, false⟩
  | .withUrl url =>
      if !validUrlScheme url then ⟨400, some "Invalid URL format", none, false⟩
      else
        match extract url with
        | none => ⟨500, some "Failed to extract metadata from the audio file", none, true⟩
        | some m => ⟨200, none, some m, true⟩

/-- A successful download: `requests.get` returns and `response.ok` holds. -/
def httpOk : HttpEnv := ⟨false, true⟩

/-- Characterization of a successful `extract_metadata` call: it requires a
non-raising, OK download, a readable file and a non-raising year fallback,
and the returned record is assembled from the post-fallback field values
with defaults and the fixed placeholder image URL. -/
theorem extract_success_iff (http : HttpEnv) (env : AudioEnv) (y : Int) (r : MetadataRecord) :
    (extract_metadata http env y).result = some r ↔
      http.raises = false ∧ http.ok = true ∧ env.readable = true ∧
      ∃ yr, fallbackYearStep env (primaryYear env) = Except.ok yr ∧
        r = ⟨strOrDefault (finalTitle env) "Unknown Title",
             strOrDefault (finalArtist env) "Unknown Artist",
             "https://via.placeholder.com/150",
             intOrDefault yr y⟩ := by
  unfold extract_metadata
  cases hr : http.raises <;> cases hok : http.ok <;> cases hrd : env.readable <;>
    simp [hr, hok, hrd]
  cases hf : fallbackYearStep env (primaryYear env) <;> simp [hf]
  exact eq_comm

/-- The `or`-defaulted value is never the empty string when the default
is not. -/
theorem strOrDefault_ne_empty (o : Option String) (d : String) (hd : d ≠ "") :
    strOrDefault o d ≠ "" := by
  cases o with
  | none => simpa [strOrDefault]
  | some s =>
      by_cases hs : s = "" <;> simp [strOrDefault, hs, hd]

/-- A falsy value is replaced by the default. -/
theorem strOrDefault_of_falsy (o : Option String) (d : String)
    (h : optTruthy o = false) : strOrDefault o d = d := by
  cases o with
  | none => rfl
  | some s => simp_all [optTruthy, strOrDefault]

/-- A falsy integer is replaced by the default. -/
theorem intOrDefault_of_falsy (o : Option Int) (d : Int)
    (h : intTruthy o = false) : intOrDefault o d = d := by
  cases o with
  | none => rfl
  | some v => simp_all [intTruthy, intOrDefault]

/-- With no year from the primary strategy, the year fallback raises exactly
when `fallbackYearRaises` says so. -/
theorem fallbackYearStep_none_error_iff (env : AudioEnv) :
    fallbackYearStep env none = Except.error () ↔ fallbackYearRaises env = true := by
  unfold fallbackYearStep fallbackYearRaises
  cases ht : env.hasTags <;> simp [intTruthy]
  cases env.tdrc with
  | none => simp
  | some ys =>
      by_cases hys : ys = "" <;> cases hp : parseYear ys <;> simp [hys, hp]

/-- C1: the claim says every transient artifact is deleted on every exit
path.  The code violates it: for an MP3 whose cover art was extracted and
whose year fallback then raises (TDRC frame `"notayear"`, primary strategy
yielding no year), the handler at lines 119-124 unlinks only the audio temp
file, and the call returns with the cover temp file still on disk
(`coverTempCreated = true`, `coverTempDeleted = false`). -/
theorem C1_cover_artifact_leaked :
    extract_metadata httpOk
      ⟨true, true, true, false, true, false, some "T", some "A", none,
       none, none, some "notayear"⟩ 2025
      = ⟨none, true, true, true, false⟩ := by decide

/-- C2: the claim says that for a payload the tag reader cannot parse the
call fails (surfaced as a 500) and no temporary artifact remains.  The
failure and the 500 are real, but the `return None` at line 59 skips the
unlink: the downloaded temp file remains on disk
(`audioTempCreated = true`, `audioTempDeleted = false`). -/
theorem C2_unreadable_payload_leak :
    (handle_extract_metadata (ReqBody.withUrl "https://example.com/song.mp3")
        (fun _ => (extract_metadata httpOk
          ⟨false, false, false, false, false, false, none, none, none,
           none, none, none⟩ 2025).result)).status = 500
    ∧ extract_metadata httpOk
        ⟨false, false, false, false, false, false, none, none, none,
         none, none, none⟩ 2025
      = ⟨none, true, false, false, false⟩ := by decide

/-- C3 counterexample: the claim says an exception inside the raw-frame
fallback still yields a defaulted result.  It does not: with no primary
year and a TDRC frame whose text does not convert to an integer, the
uncaught `ValueError` at line 103 aborts the call with a failure. -/
theorem C3_fallback_exception_fails_call :
    (extract_metadata httpOk
      ⟨true, true, false, false, false, false, none, none, none,
       none, none, some "badyear"⟩ 2025).result = none := by decide

/-- C3 (amended): an exception inside the primary (EasyID3) strategy is
caught and does not abort the fallback or the call; with the primary
strategy raising, the call succeeds exactly when the raw-frame year
fallback does not itself raise — a fallback exception aborts the
extraction with a failure. -/
theorem C3_primary_isolated_fallback_not (env : AudioEnv) (y : Int)
    (hr : env.readable = true) (he : env.easyRaises = true) :
    (extract_metadata httpOk env y).result.isSome = !fallbackYearRaises env := by
  have hpy : primaryYear env = none := by
    unfold primaryYear primaryTags
    cases ht : env.hasTags <;> simp [ht, he]
  unfold extract_metadata
  simp [httpOk, hr, hpy]
  cases hf : fallbackYearStep env none with
  | error e =>
      cases e
      have := (fallbackYearStep_none_error_iff env).mp hf
      simp [this, hf]
  | ok yr =>
      have : fallbackYearRaises env = false := by
        cases hfr : fallbackYearRaises env
        · rfl
        · exact absurd ((fallbackYearStep_none_error_iff env).mpr hfr) (by simp [hf])
      simp [this, hf]

/-- Witness for C3: with EasyID3 raising and a TIT2 frame for the fallback,
the call still succeeds. -/
theorem C3_primary_isolated_fallback_not_witness :
    (extract_metadata httpOk
      ⟨true, true, false, false, false, true, none, none, none,
       some "Fallback Title", none, none⟩ 2025).result.isSome = true :=
  (C3_primary_isolated_fallback_not
    ⟨true, true, false, false, false, true, none, none, none,
     some "Fallback Title", none, none⟩ 2025 rfl rfl).trans (by decide)

/-- C4 counterexample: the claim says a date-to-year conversion error is
caught and ignored in both strategies.  With an unparsable primary date
(`"oops"`, duly swallowed) and an unparsable TDRC frame (`"alsobad"`),
the fallback conversion error is not caught: the call fails instead of
defaulting the year. -/
theorem C4_fallback_conversion_error_fails_call :
    (extract_metadata httpOk
      ⟨true, true, false, false, false, false, some "T", some "A", some "oops",
       none, none, some "alsobad"⟩ 2025).result = none := by decide

/-- C4 (amended): in the primary strategy a date conversion error is caught
and ignored — with no TDRC frame the call succeeds and the year defaults to
the current year; in the per-field fallback a conversion error is not
caught and fails the whole extraction. -/
theorem C4_year_conversion_error_handling :
    (∀ (env : AudioEnv) (y : Int) (d : String),
       env.readable = true → env.hasTags = true → env.easyRaises = false →
       env.easyDate = some d → d ≠ "" → parseYear d = none → env.tdrc = none →
       (extract_metadata httpOk env y).result
         = some ⟨strOrDefault (finalTitle env) "Unknown Title",
                 strOrDefault (finalArtist env) "Unknown Artist",
                 "https://via.placeholder.com/150", y⟩)
    ∧ (∀ (env : AudioEnv) (y : Int) (ys : String),
       env.readable = true → env.hasTags = true → env.easyRaises = false →
       env.easyDate = none → env.tdrc = some ys → ys ≠ "" → parseYear ys = none →
       (extract_metadata httpOk env y).result = none) := by
  constructor
  · intro env y d hr ht he hd hne hpy htd
    have hprim : primaryYear env = none := by
      simp [primaryYear, primaryTags, ht, he, hd, hne, hpy]
    have hstep : fallbackYearStep env (primaryYear env) = Except.ok none := by
      simp [fallbackYearStep, hprim, intTruthy, ht, htd]
    exact (extract_success_iff httpOk env y _).mpr ⟨rfl, rfl, hr, none, hstep, rfl⟩
  · intro env y ys hr ht he hd htd hne hpy
    have hprim : primaryYear env = none := by
      simp [primaryYear, primaryTags, ht, he, hd]
    have hstep : fallbackYearStep env (primaryYear env) = Except.error () := by
      simp [fallbackYearStep, hprim, intTruthy, ht, htd, hne, hpy]
    unfold extract_metadata
    simp [httpOk, hr, hstep]

/-- Witness for C4: a swallowed primary conversion error defaults the year
to 2025, while a fallback conversion error fails the call. -/
theorem C4_year_conversion_error_handling_witness :
    (extract_metadata httpOk
      ⟨true, true, false, false, false, false, some "T", some "A", some "oops",
       none, none, none⟩ 2025).result
      = some ⟨"T", "A", "https://via.placeholder.com/150", 2025⟩
    ∧ (extract_metadata httpOk
        ⟨true, true, false, false, false, false, none, none, none,
         none, none, some "badyear"⟩ 2025).result = none :=
  ⟨(C4_year_conversion_error_handling.1
      ⟨true, true, false, false, false, false, some "T", some "A", some "oops",
       none, none, none⟩ 2025 "oops" rfl rfl rfl rfl (by decide) (by decide) rfl).trans
      (by decide),
   C4_year_conversion_error_handling.2
      ⟨true, true, false, false, false, false, none, none, none,
       none, none, some "badyear"⟩ 2025 "badyear" rfl rfl rfl rfl rfl
      (by decide) (by decide)⟩

/-- C5: every successful extraction returns the fixed placeholder image URL
regardless of any extracted cover art, and the tag reader's artist value is
surfaced under the `singer` field. -/
theorem C5_placeholder_image_and_singer (http : HttpEnv) (env : AudioEnv)
    (y : Int) (r : MetadataRecord)
    (h : (extract_metadata http env y).result = some r) :
    r.image_url = "https://via.placeholder.com/150"
    ∧ r.singer = strOrDefault (finalArtist env) "Unknown Artist" := by
  obtain ⟨-, -, -, yr, -, rfl⟩ := (extract_success_iff http env y r).mp h
  exact ⟨rfl, rfl⟩

/-- Witness for C5 on a fully tagged file. -/
theorem C5_placeholder_image_and_singer_witness :
    (MetadataRecord.image_url
       ⟨"Test Song", "Test Artist", "https://via.placeholder.com/150", 2020⟩
      = "https://via.placeholder.com/150")
    ∧ (MetadataRecord.singer
         ⟨"Test Song", "Test Artist", "https://via.placeholder.com/150", 2020⟩
        = "Test Artist") := by
  have h := C5_placeholder_image_and_singer httpOk
    ⟨true, true, false, false, false, false, some "Test Song", some "Test Artist",
     some "2020-05-01", none, none, none⟩ 2025
    ⟨"Test Song", "Test Artist", "https://via.placeholder.com/150", 2020⟩
    (by decide)
  exact ⟨h.1, h.2.trans (by decide)⟩

/-- C6: every record returned by a successful call has all fields populated:
title and singer are never empty, and when the post-fallback value of a
field is falsy the defaults "Unknown Title" / "Unknown Artist" / the current
calendar year are substituted. -/
theorem C6_defaults_fully_populated (http : HttpEnv) (env : AudioEnv)
    (y : Int) (r : MetadataRecord)
    (h : (extract_metadata http env y).result = some r) :
    r.title ≠ "" ∧ r.singer ≠ "" ∧ r.image_url ≠ ""
    ∧ (optTruthy (finalTitle env) = false → r.title = "Unknown Title")
    ∧ (optTruthy (finalArtist env) = false → r.singer = "Unknown Artist")
    ∧ (∀ yr, fallbackYearStep env (primaryYear env) = Except.ok yr →
         intTruthy yr = false → r.year = y) := by
  obtain ⟨-, -, -, yr, hyr, rfl⟩ := (extract_success_iff http env y r).mp h
  refine ⟨strOrDefault_ne_empty _ _ (by decide), strOrDefault_ne_empty _ _ (by decide),
    ?_,
    fun hf => strOrDefault_of_falsy _ _ hf,
    fun hf => strOrDefault_of_falsy _ _ hf,
    fun yr2 hyr2 hfalsy => ?_⟩
  · simp
  have hy : yr2 = yr := by rw [hyr] at hyr2; exact (Except.ok.inj hyr2).symm
  subst hy
  exact intOrDefault_of_falsy _ _ hfalsy

/-- Witness for C6 on a file with no tags at all: every field gets its
default, year the current year. -/
theorem C6_defaults_fully_populated_witness :
    (MetadataRecord.title
       ⟨"Unknown Title", "Unknown Artist", "https://via.placeholder.com/150", 2025⟩ ≠ "")
    ∧ (MetadataRecord.title
         ⟨"Unknown Title", "Unknown Artist", "https://via.placeholder.com/150", 2025⟩
        = "Unknown Title")
    ∧ (MetadataRecord.singer
         ⟨"Unknown Title", "Unknown Artist", "https://via.placeholder.com/150", 2025⟩
        = "Unknown Artist")
    ∧ (MetadataRecord.year
         ⟨"Unknown Title", "Unknown Artist", "https://via.placeholder.com/150", 2025⟩
        = 2025) := by
  have h := C6_defaults_fully_populated httpOk
    ⟨true, false, false, false, false, false, none, none, none, none, none, none⟩ 2025
    ⟨"Unknown Title", "Unknown Artist", "https://via.placeholder.com/150", 2025⟩
    (by decide)
  exact ⟨h.1, h.2.2.2.1 (by decide), h.2.2.2.2.1 (by decide),
    h.2.2.2.2.2 none rfl (by decide)⟩

/-- C7: fallback precedence per field.  When the primary strategy yields no
(truthy) value for a field and the raw frame (TIT2/TPE1/TDRC) yields one,
the final value equals the fallback's; when the primary strategy yields a
truthy value, the final value is the primary's, whatever the raw frames
hold — the fallback is not consulted for that field. -/
theorem C7_fallback_precedence (env : AudioEnv) (y : Int) (r : MetadataRecord)
    (ht : env.hasTags = true)
    (h : (extract_metadata httpOk env y).result = some r) :
    (optTruthy (primaryTitle env) = false →
       ∀ t, env.tit2 = some t → t ≠ "" → r.title = t)
    ∧ (optTruthy (primaryTitle env) = true →
       ∀ s, primaryTitle env = some s → r.title = s)
    ∧ (optTruthy (primaryArtist env) = false →
       ∀ a, env.tpe1 = some a → a ≠ "" → r.singer = a)
    ∧ (optTruthy (primaryArtist env) = true →
       ∀ s, primaryArtist env = some s → r.singer = s)
    ∧ (intTruthy (primaryYear env) = false →
       ∀ ys yv, env.tdrc = some ys → ys ≠ "" → parseYear ys = some yv →
         yv ≠ 0 → r.year = yv)
    ∧ (intTruthy (primaryYear env) = true →
       ∀ yv, primaryYear env = some yv → r.year = yv) := by
  obtain ⟨-, -, -, yr, hyr, rfl⟩ := (extract_success_iff httpOk env y r).mp h
  refine ⟨?_, ?_, ?_, ?_, ?_, ?_⟩
  · intro hp t h2 hne
    have hft : finalTitle env = some t := by simp [finalTitle, hp, ht, h2]
    show strOrDefault (finalTitle env) _ = t
    rw [hft]; simp [strOrDefault, hne]
  · intro hp s hs
    have hft : finalTitle env = some s := by simp [finalTitle, hp]; exact hs
    rw [hs] at hp; simp [optTruthy] at hp
    show strOrDefault (finalTitle env) _ = s
    rw [hft]; simp [strOrDefault, hp]
  · intro hp a h2 hne
    have hfa : finalArtist env = some a := by simp [finalArtist, hp, ht, h2]
    show strOrDefault (finalArtist env) _ = a
    rw [hfa]; simp [strOrDefault, hne]
  · intro hp s hs
    have hfa : finalArtist env = some s := by simp [finalArtist, hp]; exact hs
    rw [hs] at hp; simp [optTruthy] at hp
    show strOrDefault (finalArtist env) _ = s
    rw [hfa]; simp [strOrDefault, hp]
  · intro hp ys yv hys hne hpv hvne
    have hstep : fallbackYearStep env (primaryYear env) = Except.ok (some yv) := by
      simp [fallbackYearStep, hp, ht, hys, hne, hpv]
    rw [hstep] at hyr
    have hy : yr = some yv := (Except.ok.inj hyr).symm
    subst hy
    show intOrDefault (some yv) y = yv
    simp [intOrDefault, hvne]
  · intro hp yv hpv
    have hstep : fallbackYearStep env (primaryYear env)
        = Except.ok (primaryYear env) := by
      simp [fallbackYearStep, hp]
    have hy : yr = some yv := by
      rw [hstep] at hyr
      have h2 := Except.ok.inj hyr
      rw [hpv] at h2
      exact h2.symm
    subst hy
    rw [hpv] at hp; simp [intTruthy] at hp
    show intOrDefault (some yv) y = yv
    simp [intOrDefault, hp]

/-- Witness for C7: primary title kept, artist and year taken from the
TPE1 and TDRC raw frames. -/
theorem C7_fallback_precedence_witness :
    (MetadataRecord.title ⟨"PT", "FA", "https://via.placeholder.com/150", 1999⟩ = "PT")
    ∧ (MetadataRecord.singer ⟨"PT", "FA", "https://via.placeholder.com/150", 1999⟩ = "FA")
    ∧ (MetadataRecord.year ⟨"PT", "FA", "https://via.placeholder.com/150", 1999⟩ = 1999) := by
  have h := C7_fallback_precedence
    ⟨true, true, false, false, false, false, some "PT", none, none,
     some "FT", some "FA", some "1999-01-01"⟩ 2025
    ⟨"PT", "FA", "https://via.placeholder.com/150", 1999⟩ rfl (by decide)
  exact ⟨h.2.1 (by decide) "PT" (by decide),
    h.2.2.1 (by decide) "FA" rfl (by decide),
    h.2.2.2.2.1 (by decide) "1999-01-01" 1999 rfl (by decide) (by decide) (by decide)⟩

/-- C8: a non-success HTTP status makes the call fail at lines 41-43,
before the temp file is created and independently of anything the tag
reader would report: the outcome is the same for every `AudioEnv`, with no
transient artifact created. -/
theorem C8_download_failure_fast (http : HttpEnv) (env : AudioEnv) (y : Int)
    (h1 : http.raises = false) (h2 : http.ok = false) :
    extract_metadata http env y = ⟨none, false, false, false, false⟩ := by
  unfold extract_metadata
  simp [h1, h2]

/-- Witness for C8 at a 404-style response, with a tag environment that
would have produced a full record had it been consulted. -/
theorem C8_download_failure_fast_witness :
    extract_metadata ⟨false, false⟩
      ⟨true, true, true, false, true, false, some "T", some "A", some "2020",
       some "t", some "a", some "2020"⟩ 2025
      = ⟨none, false, false, false, false⟩ :=
  C8_download_failure_fast ⟨false, false⟩
    ⟨true, true, true, false, true, false, some "T", some "A", some "2020",
     some "t", some "a", some "2020"⟩ 2025 rfl rfl

/-- C9: a request without a `url` field, or whose url does not start with
`http://` or `https://`, gets a 400 from the route and `extract_metadata`
is never invoked (for every possible extraction function). -/
theorem C9_route_validation (extract : String → Option MetadataRecord)
    (url : String) (hurl : validUrlScheme url = false) :
    handle_extract_metadata ReqBody.noJson extract
      = ⟨400, some "URL is required", none, false⟩
    ∧ handle_extract_metadata ReqBody.withoutUrl extract
      = ⟨400, some "URL is required", none, false⟩
    ∧ handle_extract_metadata (ReqBody.withUrl url) extract
      = ⟨400, some "Invalid URL format", none, false⟩ := by
  refine ⟨rfl, rfl, ?_⟩
  unfold handle_extract_metadata
  simp [hurl]

/-- Witness for C9 at an `ftp://` url. -/
theorem C9_route_validation_witness :
    handle_extract_metadata ReqBody.noJson (fun _ => none)
      = ⟨400, some "URL is required", none, false⟩
    ∧ handle_extract_metadata ReqBody.withoutUrl (fun _ => none)
      = ⟨400, some "URL is required", none, false⟩
    ∧ handle_extract_metadata (ReqBody.withUrl "ftp://example.com/a.mp3") (fun _ => none)
      = ⟨400, some "Invalid URL format", none, false⟩ :=
  C9_route_validation (fun _ => none) "ftp://example.com/a.mp3" (by decide)

/-- C10: empty-string tags behave like absent tags, because the code tests
truthiness.  An empty primary title or artist sends the field to the raw
frame (the final value is exactly the raw frame's), an empty final value is
replaced by the default, and a falsy final year (`0`) is replaced by the
current year. -/
theorem C10_truthiness_empty_as_absent (env : AudioEnv) (y : Int) (r : MetadataRecord)
    (ht : env.hasTags = true)
    (h : (extract_metadata httpOk env y).result = some r) :
    (primaryTitle env = some "" → finalTitle env = env.tit2)
    ∧ (primaryArtist env = some "" → finalArtist env = env.tpe1)
    ∧ (finalTitle env = some "" → r.title = "Unknown Title")
    ∧ (finalArtist env = some "" → r.singer = "Unknown Artist")
    ∧ (fallbackYearStep env (primaryYear env) = Except.ok (some 0) → r.year = y) := by
  obtain ⟨-, -, -, yr, hyr, rfl⟩ := (extract_success_iff httpOk env y r).mp h
  refine ⟨?_, ?_, ?_, ?_, ?_⟩
  · intro hp; simp [finalTitle, hp, ht, optTruthy]
  · intro hp; simp [finalArtist, hp, ht, optTruthy]
  · intro hft
    show strOrDefault (finalTitle env) _ = _
    rw [hft]; rfl
  · intro hfa
    show strOrDefault (finalArtist env) _ = _
    rw [hfa]; rfl
  · intro hstep
    rw [hstep] at hyr
    have hy : yr = some 0 := (Except.ok.inj hyr).symm
    subst hy
    show intOrDefault (some 0) y = y
    rfl

/-- Witness for C10: empty-string tags everywhere and a parsed year of 0
yield the fully defaulted record. -/
theorem C10_truthiness_empty_as_absent_witness :
    finalTitle ⟨true, true, false, false, false, false, some "", some "", some "0",
                some "", some "", none⟩
      = some ""
    ∧ finalArtist ⟨true, true, false, false, false, false, some "", some "", some "0",
                   some "", some "", none⟩
      = some ""
    ∧ (MetadataRecord.title
         ⟨"Unknown Title", "Unknown Artist", "https://via.placeholder.com/150", 2025⟩
        = "Unknown Title")
    ∧ (MetadataRecord.singer
         ⟨"Unknown Title", "Unknown Artist", "https://via.placeholder.com/150", 2025⟩
        = "Unknown Artist")
    ∧ (MetadataRecord.year
         ⟨"Unknown Title", "Unknown Artist", "https://via.placeholder.com/150", 2025⟩
        = 2025) := by
  have h := C10_truthiness_empty_as_absent
    ⟨true, true, false, false, false, false, some "", some "", some "0",
     some "", some "", none⟩ 2025
    ⟨"Unknown Title", "Unknown Artist", "https://via.placeholder.com/150", 2025⟩
    rfl (by decide)
  exact ⟨(h.1 (by decide)).trans (by decide), (h.2.1 (by decide)).trans (by decide),
    h.2.2.1 (by decide), h.2.2.2.1 (by decide), h.2.2.2.2 rfl⟩

end MusicApp
